import Mathlib

/-!
# Verification of the transaction classification engine

Shallow embedding of the classification core of the
Visual-Analytics-Financial-Analysis repository:

* `scripts/add_supercategory_quick.py` — the rule-based classifier
  `categorize_transaction` (an ordered cascade of keyword/type tests) and the
  distribution report of its `main`;
* `scripts/add_supercategory.py` — the remote (model-backed) classifier with
  its response validation and exception fallback, and the deduplicating batch
  pipeline of its `main` (fingerprint key, `drop_duplicates`, dict of
  fingerprint → label, broadcast via `map`).

Python strings are embedded as `String`; a field put through `str.lower()` is
embedded as its list of characters mapped through `Char.toLower` (`lowerStr`,
the ASCII-faithful counterpart of Python `lower()`); the substring test
`needle in hay` is embedded as `strIn`; membership of the lowered type field
in a list of tokens (`type_lower in [...]`) as `memTokens`.
-/

/-- Lowercased character list of a string: embeds Python's `str(x).lower()`
view of a text field. -/
def lowerStr (s : String) : List Char := s.toList.map Char.toLower

/-- `leadMatch needle hay` is true when `needle` is an initial segment of
`hay`. -/
def leadMatch : List Char → List Char → Bool
  | [], _ => true
  | _ :: _, [] => false
  | a :: as, b :: bs => a == b && leadMatch as bs

/-- `containsSub needle hay` is true when `needle` occurs contiguously inside
`hay`; the empty needle occurs in every list, as in Python. -/
def containsSub (needle : List Char) : List Char → Bool
  | [] => needle.isEmpty
  | c :: rest => leadMatch needle (c :: rest) || containsSub needle rest

/-- Embedding of Python's substring test `needle in hay` for a literal needle
and a lowered text field. -/
def strIn (needle : String) (hay : List Char) : Bool :=
  containsSub needle.toList hay

/-- Exact equality of a lowered field with a literal token. -/
def tokenEq (l : List Char) (tkn : String) : Bool :=
  l == tkn.toList

/-- Embedding of Python's exact list membership `field in [tok1, tok2, ...]`. -/
def memTokens (tokens : List String) (l : List Char) : Bool :=
  tokens.any (tokenEq l)

/-! ## Keyword taxonomy of `add_supercategory_quick.py`

Each list below transcribes the corresponding Python list literal inside
`categorize_transaction` (the type-token lists of lines 18 and 27 appear
inline in the cascade there and are named here). -/

/-- Type tokens of the first income tier (line 18). -/
def income_type_tokens : List String := ["topup", "reward", "interest"]

/-- `income_keywords` (lines 21–22). -/
def income_keywords : List String :=
  ["payment from", "transfer from", "refund", "reward",
   "interest earned", "income", "deposit", "salary"]

/-- `financial_keywords` (lines 31–33). -/
def financial_keywords : List String :=
  ["transfer to", "transfer from", "to person_name",
   "fee", "delivery", "account_ref", "closing",
   "pocket withdrawal"]

/-- `essential_keywords` (lines 41–45). -/
def essential_keywords : List String :=
  ["carrefour", "aldi", "lidl", "colruyt", "food",
   "groceries", "supermarket", "healthcare", "pharmacy",
   "utilities", "bill", "orange", "electric", "water",
   "transportation", "sncb", "de lijn", "metro", "bus",
   "education", "university", "school", "wash campus"]

/-- `grocery_stores` (lines 60–63). -/
def grocery_stores : List String :=
  ["carrefour", "aldi", "lidl", "colruyt", "okay", "condis",
   "primaprix", "norma", "euroshop", "action", "mcdonald",
   "delhaize", "continente", "intermarche", "hema", "supermercado",
   "wenzhou", "amigo", "tradys", "asiatic", "asian"]

/-- `lifestyle_keywords` (lines 68–74). -/
def lifestyle_keywords : List String :=
  ["restaurant", "cafe", "bar", "cinema", "entertainment",
   "shopping", "retail", "amazon", "netflix", "streaming",
   "personal care", "beauty", "hobby", "travel", "flight",
   "hotel", "vacation", "uber", "taxi", "bolt", "pico",
   "doner", "pizza", "airbnb", "booking", "hairdresser",
   "nail", "manicure", "massage", "spa", "gym", "yoga",
   "coffee", "chocolate", "museum", "theater", "circus"]

/-- `restaurants` (lines 86–90). -/
def restaurants : List String :=
  ["pico", "doner", "restaurant", "atelier", "theo", "chez",
   "cafe", "bar", "bakery", "pastry", "croissanterie", "sandwich",
   "frituur", "friterie", "kebab", "pizza", "burger", "hot dog",
   "tacos", "sushi", "chinese", "indian", "vietnamese", "thai",
   "tapas", "ramen", "curry", "pasta", "ristorante", "trattoria"]

/-- Food tokens of the card-payment heuristic (line 101). -/
def food_tokens : List String := ["food", "eat", "dine", "meal", "snack"]

/-- Market/store tokens of the card-payment heuristic (line 104). -/
def market_tokens : List String := ["market", "store", "shop", "superm"]

/-- Embedding of `categorize_transaction` of `add_supercategory_quick.py`
(lines 9–114): the `if`/`return` cascade becomes an `if`/`else` chain, the
local variables `desc_lower`, `category_lower`, `type_lower` are inlined as
`lowerStr` of the arguments, and the nested `if` of the transfer/fee tier
(lines 27–29), which falls through when its inner test fails, becomes a
conjunction. -/
def categorize_transaction (description merchant_category transaction_type : String) : String :=
  if memTokens income_type_tokens (lowerStr transaction_type) then "Income_Receipts"
  else if income_keywords.any (fun k => strIn k (lowerStr description)) then "Income_Receipts"
  else if (memTokens ["transfer", "fee"] (lowerStr transaction_type)
      && (strIn "to person_name" (lowerStr description)
          || strIn "from person_name" (lowerStr description))) then "Financial_Management"
  else if financial_keywords.any (fun k => strIn k (lowerStr description)) then "Financial_Management"
  else if strIn "financial services" (lowerStr merchant_category) then "Financial_Management"
  else if essential_keywords.any
      (fun k => strIn k (lowerStr description) || strIn k (lowerStr merchant_category)) then "Essential_Living"
  else if strIn "utilities & bills" (lowerStr merchant_category) then "Essential_Living"
  else if strIn "transportation" (lowerStr merchant_category) then "Essential_Living"
  else if strIn "education" (lowerStr merchant_category) then "Essential_Living"
  else if grocery_stores.any (fun s => strIn s (lowerStr description)) then "Essential_Living"
  else if lifestyle_keywords.any
      (fun k => strIn k (lowerStr description) || strIn k (lowerStr merchant_category)) then "Lifestyle_Spending"
  else if (strIn "entertainment" (lowerStr merchant_category)
      || strIn "shopping & retail" (lowerStr merchant_category)) then "Lifestyle_Spending"
  else if strIn "personal care" (lowerStr merchant_category) then "Lifestyle_Spending"
  else if restaurants.any (fun p => strIn p (lowerStr description)) then "Lifestyle_Spending"
  else if (tokenEq (lowerStr transaction_type) "card payment"
      && food_tokens.any (fun k => strIn k (lowerStr description))) then "Lifestyle_Spending"
  else if (tokenEq (lowerStr transaction_type) "card payment"
      && market_tokens.any (fun k => strIn k (lowerStr description))) then "Essential_Living"
  else if (tokenEq (lowerStr transaction_type) "card payment"
      && decide ((lowerStr description).length < 10)) then "Other"
  else if (strIn "service" (lowerStr description)
      || strIn "servicios" (lowerStr description)) then "Financial_Management"
  else "Other"

/-- `valid_categories` of `add_supercategory.py` (line 47): the closed set of
five category labels. -/
def valid_categories : List String :=
  ["Essential_Living", "Lifestyle_Spending", "Financial_Management",
   "Income_Receipts", "Other"]

example : categorize_transaction "SALARY PAYMENT FROM EMPLOYER" "" "topup" = "Income_Receipts" := by decide
example : categorize_transaction "NETFLIX SUBSCRIPTION" "Entertainment" "card payment" = "Lifestyle_Spending" := by decide
example : categorize_transaction "service" "" "card payment" = "Other" := by decide
example : categorize_transaction "qqqq service" "" "card payment" = "Financial_Management" := by decide

/-! ## The remote classifier of `add_supercategory.py`

`categorize_transaction` there builds a prompt, performs one chat-completion
call inside a `try`, strips the response, validates it against
`valid_categories`, and on any exception returns `'Other'`.  The outcome of
the network call is not computable here, so it is passed explicitly as a
`RemoteResult`; the `except` clause becomes the `error` branch.  The printed
diagnostics (lines 51 and 55) are embedded as a returned `RemoteWarning`. -/

/-- Outcome of the chat-completion call: either a response string or a raised
exception with its message. -/
inductive RemoteResult where
  | ok (response : String)
  | error (message : String)
deriving DecidableEq

/-- Diagnostic recorded by the remote classifier: the warning print of
line 51 (invalid category) or the error print of line 55 (call failed). -/
inductive RemoteWarning where
  | invalidCategory (category : String)
  | callFailed (message : String)
deriving DecidableEq

/-- Python's `str.strip()`: drop leading and trailing whitespace. -/
def stripChars (l : List Char) : List Char :=
  ((l.dropWhile Char.isWhitespace).reverse.dropWhile Char.isWhitespace).reverse

/-- Embedding of `categorize_transaction` of `add_supercategory.py`
(lines 14–56): strip the response, return it when it is one of the five
labels, otherwise return `'Other'` with an invalid-category warning; on an
exception return `'Other'` with a call-failed warning.  The local
`category = response.strip()` of line 44 is inlined as
`String.mk (stripChars response.toList)`. -/
def remote_categorize : RemoteResult → String × Option RemoteWarning
  | RemoteResult.ok response =>
    if valid_categories.contains (String.mk (stripChars response.toList)) then
      (String.mk (stripChars response.toList), none)
    else
      ("Other",
        some (RemoteWarning.invalidCategory (String.mk (stripChars response.toList))))
  | RemoteResult.error message => ("Other", some (RemoteWarning.callFailed message))

/-! ## The deduplicating batch pipeline of `add_supercategory.py` (`main`)

A CSV row exposes the three fields the classifier inspects plus the
remaining columns, which the pipeline carries along untouched. -/

/-- One row of the transaction table: the three inspected columns
(`Description_Anon`, `Merchant_Category`, `Type`) plus the rest of the row,
which the classifier never reads. -/
structure Record where
  description : String
  merchantCategory : String
  txnType : String
  rest : String
deriving DecidableEq

/-- The composite descriptor the batch classifier deduplicates on. -/
def fingerprint (r : Record) : String × String × String :=
  (r.description, r.merchantCategory, r.txnType)

/-- `unique_key` of lines 68–70: the three fields joined with `'|'`. -/
def uniqueKeyT (p : String × String × String) : String :=
  p.1 ++ "|" ++ p.2.1 ++ "|" ++ p.2.2

/-- The `unique_key` column value of a row. -/
def uniqueKey (r : Record) : String := uniqueKeyT (fingerprint r)

/-- Keep the first occurrence of each element, given the set of already seen
elements: the semantics of pandas `drop_duplicates` (default `keep='first'`). -/
def dropDupAux : List (String × String × String) → List (String × String × String) →
    List (String × String × String)
  | [], _ => []
  | p :: ps, seen =>
    if p ∈ seen then dropDupAux ps seen else p :: dropDupAux ps (p :: seen)

/-- `unique_rows` of line 73: the distinct
(`Description_Anon`, `Merchant_Category`, `Type`) rows, first occurrences in
order.  The Python projection also carries the `unique_key` column, but that
column is a function of the other three, so deduplicating the triples is the
same partition. -/
def unique_rows (rows : List Record) : List (String × String × String) :=
  dropDupAux (rows.map fingerprint) []

/-- The loop of lines 76–85 over `unique_rows`: one classifier call per
iteration, writing `unique_mapping[unique_key] = category`.  The dict write
is embedded by consing the new binding in front (lookup takes the first,
i.e. most recent, binding — dict overwrite); the second component counts the
classifier calls, one per iteration. -/
def uniqueMappingCount (classify : String → String → String → String) (rows : List Record) :
    List (String × String) × Nat :=
  (unique_rows rows).foldl
    (fun acc p => ((uniqueKeyT p, classify p.1 p.2.1 p.2.2) :: acc.1, acc.2 + 1))
    ([], 0)

/-- `unique_mapping` after the loop of lines 76–85. -/
def unique_mapping (classify : String → String → String → String) (rows : List Record) :
    List (String × String) :=
  (uniqueMappingCount classify rows).1

/-- Dict lookup: the most recently written binding for the key, `none` when
the key is absent (pandas `map` yields NaN then). -/
def lookupMapping (m : List (String × String)) (k : String) : Option String :=
  (m.find? (fun e => e.1 == k)).map (fun e => e.2)

/-- The `Super_Category` value a row receives at line 88:
`df['unique_key'].map(unique_mapping)` looks its `unique_key` up in the
mapping. -/
def assignedLabel (classify : String → String → String → String) (rows : List Record)
    (r : Record) : Option String :=
  lookupMapping (unique_mapping classify rows) (uniqueKey r)

/-- The full `Super_Category` column produced by `main` of
`add_supercategory.py`: one label per row, by fingerprint lookup. -/
def batchClassify (classify : String → String → String → String) (rows : List Record) :
    List (Option String) :=
  rows.map (assignedLabel classify rows)

/-! ## The distribution report of `add_supercategory_quick.py` (`main`,
lines 141–144): `value_counts` gives each occurring label its count, and the
printed percentage is `count/len(df)*100`.  `value_counts` orders the pairs
by descending count; the order is presentation only and the report is read
as a mapping, so the entries are listed here per distinct label. -/

/-- Count and percentage per occurring label. -/
def distribution (labels : List String) : List (String × Nat × ℚ) :=
  labels.dedup.map
    (fun lab => (lab, labels.count lab, ((labels.count lab : ℚ) / labels.length) * 100))

example :
    remote_categorize (RemoteResult.ok " Other\n") = ("Other", none) := by decide
example :
    remote_categorize (RemoteResult.ok "NotACategory")
      = ("Other", some (RemoteWarning.invalidCategory "NotACategory")) := by decide
example :
    distribution ["Other", "Income_Receipts", "Other"]
      = [("Income_Receipts", 1, 100/3), ("Other", 2, 200/3)] := by
  simp +decide [distribution, List.count_cons, List.dedup_cons_of_mem, List.dedup_cons_of_not_mem]
  norm_num

/-! ## Helper lemmas -/

/-- One classifier call is made per iteration of the loop of lines 76–85:
the call counter equals the number of distinct rows iterated over. -/
theorem uniqueMappingCount_snd_aux (classify : String → String → String → String)
    (l : List (String × String × String)) (init : List (String × String) × Nat) :
    (l.foldl
      (fun acc p => ((uniqueKeyT p, classify p.1 p.2.1 p.2.2) :: acc.1, acc.2 + 1)) init).2
      = init.2 + l.length := by
  induction l generalizing init with
  | nil => simp
  | cons p ps ih =>
    simp only [List.foldl_cons, ih, List.length_cons]
    omega

/-- `dropDupAux` keeps exactly one representative of each element not yet
seen. -/
theorem dropDupAux_length (l seen : List (String × String × String)) :
    (dropDupAux l seen).length = (l.toFinset \ seen.toFinset).card := by
  induction l generalizing seen with
  | nil => simp [dropDupAux]
  | cons p ps ih =>
    by_cases hp : p ∈ seen
    · have hp' : p ∈ seen.toFinset := List.mem_toFinset.mpr hp
      simp only [dropDupAux, if_pos hp, ih, List.toFinset_cons,
        Finset.insert_sdiff_of_mem _ hp']
    · have hp' : p ∉ seen.toFinset := fun h => hp (List.mem_toFinset.mp h)
      have key : (p :: ps).toFinset \ seen.toFinset
          = insert p (ps.toFinset \ (p :: seen).toFinset) := by
        ext x
        by_cases hx : x = p
        · subst hx
          simp [hp]
        · simp [hx]
      have hnot : p ∉ ps.toFinset \ (p :: seen).toFinset := by
        simp
      simp only [dropDupAux, if_neg hp, List.length_cons, ih, key,
        Finset.card_insert_of_not_mem hnot]

/-- Summing the per-label counts over the distinct labels recovers the batch
size. -/
theorem sum_count_toFinset (l : List String) :
    ∑ a ∈ l.toFinset, l.count a = l.length := by
  simp

/-- Both branches of a conditional lie in `l` when both alternatives do. -/
theorem mem_ite_of_mem {α : Type} {c : Prop} [Decidable c] {a b : α} {l : List α}
    (ha : a ∈ l) (hb : b ∈ l) : (if c then a else b) ∈ l := by
  by_cases h : c
  · rwa [if_pos h]
  · rwa [if_neg h]

/-! ## Claims -/

/-- C1: for every transaction record (any three string inputs for
description, merchant category and transaction type), the rule-based
classifier returns exactly one of the five labels — never an empty string and
never a string outside the set. -/
theorem classify_total (d mc t : String) :
    categorize_transaction d mc t ∈ valid_categories := by
  unfold categorize_transaction
  repeat' apply mem_ite_of_mem
  all_goals decide

/-- C1 witness. -/
theorem classify_total_witness :
    categorize_transaction "UNKNOWN VENDOR XY" "" "card payment" ∈ valid_categories :=
  classify_total "UNKNOWN VENDOR XY" "" "card payment"

/-- C2: a record whose description contains an income free-text keyword and a
lifestyle free-text keyword is classified `Income_Receipts`: the income
keyword tier precedes the lifestyle tier and the first match wins. -/
theorem income_beats_lifestyle (d mc t : String)
    (hinc : income_keywords.any (fun k => strIn k (lowerStr d)) = true)
    (hlife : lifestyle_keywords.any (fun k => strIn k (lowerStr d)) = true) :
    categorize_transaction d mc t = "Income_Receipts" := by
  unfold categorize_transaction
  by_cases h : memTokens income_type_tokens (lowerStr t) = true
  · rw [if_pos h]
  · rw [if_neg h, if_pos hinc]

/-- C2 witness: "REFUND for Netflix" contains the income keyword `refund` and
the lifestyle keyword `netflix`, and is classified `Income_Receipts`. -/
theorem income_beats_lifestyle_witness :
    income_keywords.any (fun k => strIn k (lowerStr "REFUND for Netflix")) = true
    ∧ lifestyle_keywords.any (fun k => strIn k (lowerStr "REFUND for Netflix")) = true
    ∧ categorize_transaction "REFUND for Netflix" "" "card payment" = "Income_Receipts" :=
  ⟨by decide, by decide,
    income_beats_lifestyle "REFUND for Netflix" "" "card payment" (by decide) (by decide)⟩

/-- C3 counterexample: the description `"service"` with empty merchant
category and type `"card payment"` matches no tier before the card-payment
heuristics, contains no food and no market/store token, and contains
`"service"` — yet the classifier returns `"Other"`, not
`"Financial_Management"`: the short-description check (`len < 10`, line 107)
fires before the generic service tier is reached. -/
theorem service_short_desc_cex :
    categorize_transaction "service" "" "card payment" = "Other"
    ∧ categorize_transaction "service" "" "card payment" ≠ "Financial_Management"
    ∧ tokenEq (lowerStr "card payment") "card payment" = true
    ∧ strIn "service" (lowerStr "service") = true
    ∧ food_tokens.any (fun k => strIn k (lowerStr "service")) = false
    ∧ market_tokens.any (fun k => strIn k (lowerStr "service")) = false := by
  refine ⟨by decide, by decide, by decide, by decide, by decide, by decide⟩

/-- C3 amended: a `card payment` record matching no earlier tier, with no
food and no market/store token, whose description contains `service` or
`servicios`, is classified `Financial_Management` — provided its lowered
description is at least 10 characters long (otherwise the short-description
check of line 107 returns `Other` first). -/
theorem service_tier_amended (d mc t : String)
    (h1 : memTokens income_type_tokens (lowerStr t) = false)
    (h2 : income_keywords.any (fun k => strIn k (lowerStr d)) = false)
    (h3 : (memTokens ["transfer", "fee"] (lowerStr t)
        && (strIn "to person_name" (lowerStr d)
            || strIn "from person_name" (lowerStr d))) = false)
    (h4 : financial_keywords.any (fun k => strIn k (lowerStr d)) = false)
    (h5 : strIn "financial services" (lowerStr mc) = false)
    (h6 : essential_keywords.any
        (fun k => strIn k (lowerStr d) || strIn k (lowerStr mc)) = false)
    (h7 : strIn "utilities & bills" (lowerStr mc) = false)
    (h8 : strIn "transportation" (lowerStr mc) = false)
    (h9 : strIn "education" (lowerStr mc) = false)
    (h10 : grocery_stores.any (fun s => strIn s (lowerStr d)) = false)
    (h11 : lifestyle_keywords.any
        (fun k => strIn k (lowerStr d) || strIn k (lowerStr mc)) = false)
    (h12 : (strIn "entertainment" (lowerStr mc)
        || strIn "shopping & retail" (lowerStr mc)) = false)
    (h13 : strIn "personal care" (lowerStr mc) = false)
    (h14 : restaurants.any (fun p => strIn p (lowerStr d)) = false)
    (hcard : tokenEq (lowerStr t) "card payment" = true)
    (hfood : food_tokens.any (fun k => strIn k (lowerStr d)) = false)
    (hmarket : market_tokens.any (fun k => strIn k (lowerStr d)) = false)
    (hlen : 10 ≤ (lowerStr d).length)
    (hserv : (strIn "service" (lowerStr d) || strIn "servicios" (lowerStr d)) = true) :
    categorize_transaction d mc t = "Financial_Management" := by
  have hlen' : ¬ (lowerStr d).length < 10 := Nat.not_lt.mpr hlen
  unfold categorize_transaction
  rw [if_neg (by simp [h1]), if_neg (by simp [h2]), if_neg (by simp [h3]),
    if_neg (by simp [h4]), if_neg (by simp [h5]), if_neg (by simp [h6]),
    if_neg (by simp [h7]), if_neg (by simp [h8]), if_neg (by simp [h9]),
    if_neg (by simp [h10]), if_neg (by simp [h11]), if_neg (by simp [h12]),
    if_neg (by simp [h13]), if_neg (by simp [h14]), if_neg (by simp [hfood]),
    if_neg (by simp [hmarket]), if_neg (by simp [hlen']), if_pos hserv]

/-- C3 amended witness: `"qqqq service"` (12 characters) of type
`card payment` reaches the service tier and is classified
`Financial_Management`. -/
theorem service_tier_amended_witness :
    categorize_transaction "qqqq service" "" "card payment" = "Financial_Management" :=
  service_tier_amended "qqqq service" "" "card payment"
    (by decide) (by decide) (by decide) (by decide) (by decide) (by decide)
    (by decide) (by decide) (by decide) (by decide) (by decide) (by decide)
    (by decide) (by decide) (by decide) (by decide) (by decide) (by decide)
    (by decide)

/-- C7: a record whose three fields are all empty (or missing — pandas reads
a missing cell as NaN and line 13's `str()` turns it into `"nan"`) matches no
keyword and no type token, every tier is skipped, and the classifier returns
the default `"Other"` without failing. -/
theorem empty_fields_default (d mc t : String)
    (hd : d = "" ∨ d = "nan") (hmc : mc = "" ∨ mc = "nan")
    (ht : t = "" ∨ t = "nan") :
    categorize_transaction d mc t = "Other" := by
  rcases hd with rfl | rfl <;> rcases hmc with rfl | rfl <;>
    rcases ht with rfl | rfl <;> decide

/-- C7 witness: the all-empty record is classified `"Other"`. -/
theorem empty_fields_default_witness :
    categorize_transaction "" "" "" = "Other" :=
  empty_fields_default "" "" "" (Or.inl rfl) (Or.inl rfl) (Or.inl rfl)

/-- C4: the remote classifier degrades every failure to `Other`: an
unrecognized response yields `("Other", invalid-category warning)`, an
exception from the call yields `("Other", call-failed warning)`, and on every
outcome the embedding returns a label from the closed five-label set — no
exception crosses the classifier's boundary. -/
theorem remote_never_raises (r e : String) (o : RemoteResult)
    (hr : valid_categories.contains (String.mk (stripChars r.toList)) = false) :
    remote_categorize (RemoteResult.ok r)
        = ("Other", some (RemoteWarning.invalidCategory (String.mk (stripChars r.toList))))
    ∧ remote_categorize (RemoteResult.error e)
        = ("Other", some (RemoteWarning.callFailed e))
    ∧ (remote_categorize o).1 ∈ valid_categories := by
  refine ⟨?_, rfl, ?_⟩
  · simp only [remote_categorize]
    rw [if_neg (fun hcontra => by rw [hcontra] at hr; exact Bool.noConfusion hr)]
  · cases o with
    | ok resp =>
      simp only [remote_categorize]
      by_cases h : valid_categories.contains (String.mk (stripChars resp.toList)) = true
      · rw [if_pos h]
        simpa using h
      · rw [if_neg h]
        simp [valid_categories]
    | error m => simp [remote_categorize, valid_categories]

/-- C4 witness: the simulated response `"NotACategory"` and the simulated
failed call both default to `Other` with the corresponding warning. -/
theorem remote_never_raises_witness :
    valid_categories.contains (String.mk (stripChars "NotACategory".toList)) = false
    ∧ remote_categorize (RemoteResult.ok "NotACategory")
        = ("Other",
           some (RemoteWarning.invalidCategory (String.mk (stripChars "NotACategory".toList))))
    ∧ remote_categorize (RemoteResult.error "timeout")
        = ("Other", some (RemoteWarning.callFailed "timeout"))
    ∧ (remote_categorize (RemoteResult.error "timeout")).1 ∈ valid_categories :=
  ⟨by decide, (remote_never_raises "NotACategory" "timeout"
      (RemoteResult.error "timeout") (by decide)).1,
    (remote_never_raises "NotACategory" "timeout"
      (RemoteResult.error "timeout") (by decide)).2.1,
    (remote_never_raises "NotACategory" "timeout"
      (RemoteResult.error "timeout") (by decide)).2.2⟩

/-- C10: a response whose whitespace-stripped form is one of the five labels
is accepted: the response is stripped before validation, so surrounding
whitespace or a trailing newline does not cause a default to `Other`. -/
theorem remote_strip_accepts (r : String)
    (h : valid_categories.contains (String.mk (stripChars r.toList)) = true) :
    remote_categorize (RemoteResult.ok r) = (String.mk (stripChars r.toList), none) := by
  simp only [remote_categorize]
  rw [if_pos h]

/-- C10 witness: `"  Other\n"` strips to `"Other"` and is accepted. -/
theorem remote_strip_accepts_witness :
    remote_categorize (RemoteResult.ok "  Other\n")
      = (String.mk (stripChars "  Other\n".toList), none)
    ∧ String.mk (stripChars "  Other\n".toList) = "Other" :=
  ⟨remote_strip_accepts "  Other\n" (by decide), by decide⟩

/-- C5: two records of a batch with identical
(description, merchant category, type) triples receive the same label from
the deduplicating batch classifier, whatever classifier is active. -/
theorem fingerprint_consistency (classify : String → String → String → String)
    (rows : List Record) (r₁ r₂ : Record)
    (h₁ : r₁ ∈ rows) (h₂ : r₂ ∈ rows)
    (h : fingerprint r₁ = fingerprint r₂) :
    assignedLabel classify rows r₁ = assignedLabel classify rows r₂ := by
  unfold assignedLabel uniqueKey
  rw [h]

/-- C5 witness: two rows sharing the triple `("a", "b", "c")` but differing
elsewhere receive the same label. -/
theorem fingerprint_consistency_witness :
    assignedLabel (fun _ _ _ => "Other")
        [⟨"a", "b", "c", "one"⟩, ⟨"a", "b", "c", "two"⟩] ⟨"a", "b", "c", "one"⟩
      = assignedLabel (fun _ _ _ => "Other")
        [⟨"a", "b", "c", "one"⟩, ⟨"a", "b", "c", "two"⟩] ⟨"a", "b", "c", "two"⟩ :=
  fingerprint_consistency (fun _ _ _ => "Other")
    [⟨"a", "b", "c", "one"⟩, ⟨"a", "b", "c", "two"⟩]
    ⟨"a", "b", "c", "one"⟩ ⟨"a", "b", "c", "two"⟩ (by decide) (by decide) (by decide)

/-- C6: on a batch of records, the loop of the deduplicating batch classifier
invokes the underlying classifier exactly once per distinct
(description, merchant category, type) fingerprint: its call counter equals
the number of distinct fingerprints, not the batch length. -/
theorem dedup_call_count (classify : String → String → String → String)
    (rows : List Record) :
    (uniqueMappingCount classify rows).2 = (rows.map fingerprint).toFinset.card := by
  unfold uniqueMappingCount
  rw [uniqueMappingCount_snd_aux]
  unfold unique_rows
  rw [dropDupAux_length]
  simp

/-- C8: the distribution reporter maps each occurring label to its count and
its percentage `count/len*100` of the batch, the per-label counts sum to the
batch size, and the batch with counts {Income_Receipts: 3, Other: 7} reports
30% and 70%. -/
theorem distribution_report (labels : List String) (lab : String) (h : lab ∈ labels) :
    (lab, labels.count lab, ((labels.count lab : ℚ) / labels.length) * 100)
        ∈ distribution labels
    ∧ (∑ l ∈ labels.toFinset, labels.count l) = labels.length
    ∧ distribution ["Income_Receipts", "Income_Receipts", "Income_Receipts",
        "Other", "Other", "Other", "Other", "Other", "Other", "Other"]
      = [("Income_Receipts", 3, 30), ("Other", 7, 70)] := by
  refine ⟨?_, sum_count_toFinset labels, ?_⟩
  · unfold distribution
    exact List.mem_map_of_mem _ (List.mem_dedup.mpr h)
  · simp +decide [distribution, List.count_cons, List.dedup_cons_of_mem,
      List.dedup_cons_of_not_mem]
    norm_num

/-- C8 witness: instantiated on a concrete batch. -/
theorem distribution_report_witness :
    "Other" ∈ ["Income_Receipts", "Other", "Other"]
    ∧ (∑ l ∈ (["Income_Receipts", "Other", "Other"] : List String).toFinset,
        (["Income_Receipts", "Other", "Other"] : List String).count l)
      = (["Income_Receipts", "Other", "Other"] : List String).length :=
  ⟨by decide,
    (distribution_report ["Income_Receipts", "Other", "Other"] "Other" (by decide)).2.1⟩

/-- First row of the fingerprint-collision example: triple
`("a|b", "c", "x")`. -/
def rowA : Record := ⟨"a|b", "c", "x", "row one"⟩

/-- Second row of the fingerprint-collision example: triple
`("a", "b|c", "x")` — different triple, same concatenated key. -/
def rowB : Record := ⟨"a", "b|c", "x", "row two"⟩

/-- A classifier that distinguishes the two triples of the collision
example. -/
def collideClassify : String → String → String → String :=
  fun d _ _ => if d = "a|b" then "Essential_Living" else "Other"

/-- C9: the fingerprint key is the `'|'`-joined concatenation, so the
distinct triples `("a|b","c","x")` and `("a","b|c","x")` share the key
`"a|b|c|x"`: both are classified (two classifier calls), the later write
overwrites the mapping entry, and both records receive the label computed
for the triple classified last, although the classifier distinguishes the
two triples. -/
theorem fingerprint_collision :
    fingerprint rowA ≠ fingerprint rowB
    ∧ uniqueKey rowA = uniqueKey rowB
    ∧ (uniqueMappingCount collideClassify [rowA, rowB]).2 = 2
    ∧ collideClassify "a|b" "c" "x" ≠ collideClassify "a" "b|c" "x"
    ∧ batchClassify collideClassify [rowA, rowB]
        = [some (collideClassify "a" "b|c" "x"), some (collideClassify "a" "b|c" "x")] :=
  ⟨by decide, by decide, by decide, by decide, by decide⟩
